import Mathlib

/-!
# Verification of the embedded-portfolio concurrency-and-timing core

Shallow embedding of the four components of the repository:

* `Adc` — `adc.c`: the ADC12 interrupt handler with change-threshold
  publishing into a single-slot mailbox, and the foreground consumer
  `poll_adc_value`.
* `Pwm` — `pwm.c`: `set_duty_cycle`, clamping a fractional duty cycle and
  writing the Timer_A0 CCR1 compare register.  The C code computes with
  `float`; here the arithmetic is modelled with exact rationals (`ℚ`): on
  every input used below, IEEE-754 single-precision rounding of the inputs
  and of the product does not change which integer the final cast produces,
  so the rational model and the machine program agree on these values.
* `Timer` — `timer.c` of the gpio-input-state-machine project: the periodic
  tick source with its coalescing `tick_flag`, `consume_tick`, and the
  `TIMER_CCR0_FROM_MS` compare-value computation (32-bit unsigned C
  arithmetic, modelled with explicit `% 2^32` / `% 2^16`).

Interrupt side effects are modelled by explicit state passing.  The MSP430
intrinsic `__bic_SR_register_on_exit(LPM0_bits)` ("wake request": clear the
low-power bits in the saved status register so the foreground loop resumes
on return from the handler) is modelled as a boolean field
`wake_requested` of the handler's state; a handler that calls the intrinsic
sets it, a handler that does not leaves it unchanged.
-/

namespace Adc

/-- `ADC_CHANGE_THRESHHOLD` from adc.c (spelling as in the source):
a new sample is published only when `|raw - last_published|` exceeds this. -/
def ADC_CHANGE_THRESHHOLD : ℕ := 100

/-- State of the ADC module: the two file-scope volatiles `published` and
`publish_value`, the `static` local `last_published` of the ISR, and the
modelled wake request (`__bic_SR_register_on_exit`).  In the source,
`published == false` means a new value is pending for main;
`published == true` means no unread value is pending. -/
structure AdcState where
  published : Bool
  publish_value : ℕ
  last_published : ℕ
  wake_requested : Bool
deriving Repr, DecidableEq

/-- Initial state at startup: the source has
`static volatile bool published = false;`,
`static volatile uint16_t publish_value = 0;`, and the ISR-local
`static uint16_t last_published = 0;`; no wake requested. -/
def initialState : AdcState :=
  { published := false, publish_value := 0, last_published := 0,
    wake_requested := false }

/-- Unsigned absolute difference, exactly as computed in the ISR:
`(raw > last_published) ? (raw - last_published) : (last_published - raw)`. -/
def udiff (a b : ℕ) : ℕ := if a > b then a - b else b - a

/-- `ADC12_interrupt` from adc.c.  `mem0` models the guard
`ADC12IV == ADC12IV_ADC12IFG0` (true when the completed conversion is the
configured channel's MEM0 result); any other interrupt cause is ignored.
On the MEM0 path: compute `diff = |raw - last_published|`; if
`diff > ADC_CHANGE_THRESHHOLD`, update `last_published`, store `raw` in
`publish_value`, set `published = false` (pending), and request exit from
LPM0 on return; otherwise change nothing. -/
def ADC12_interrupt (mem0 : Bool) (raw : ℕ) (s : AdcState) : AdcState :=
  if mem0 then
    let diff := udiff raw s.last_published
    if diff > ADC_CHANGE_THRESHHOLD then
      { s with last_published := raw
               publish_value := raw
               published := false
               wake_requested := true }
    else s
  else s

/-- `poll_adc_value` from adc.c.  Result `(r, w, s')`: `r` is the C return
value, `w` is the value written through the caller's `external_value`
pointer (`none` when the pointer is not written), `s'` the state after the
call.  If `published` is false (a value is pending), copy `publish_value`
out, set `published = true`, return true; otherwise return false. -/
def poll_adc_value (s : AdcState) : Bool × Option ℕ × AdcState :=
  if !s.published then
    (true, some s.publish_value, { s with published := true })
  else
    (false, none, s)

/-- Run the ISR (MEM0 path) over a list of raw samples in order. -/
def run (samples : List ℕ) (s : AdcState) : AdcState :=
  samples.foldl (fun t raw => ADC12_interrupt true raw t) s

end Adc

namespace Pwm

/-- `TIMER_CCR0_VALUE` from pwm.c: the PWM period in timer counts. -/
def TIMER_CCR0_VALUE : ℕ := 320

/-- `set_duty_cycle` from pwm.c, float arithmetic modelled over `ℚ`:
clamp `duty_cycle` to [0, 1] by the two successive `if`s of the source,
then the C cast `(uint16_t)(TIMER_CCR0_VALUE * d)` truncates the product
toward zero (the product lies in [0, 320], so this is `floor` and no
16-bit wrap occurs).  Returns the value written to `TA0CCR1`. -/
def set_duty_cycle (duty_cycle : ℚ) : ℕ :=
  let d := duty_cycle
  let d := if d < 0 then 0 else d
  let d := if d > 1 then 1 else d
  (⌊(TIMER_CCR0_VALUE : ℚ) * d⌋).toNat

/-- Modelled from the spec: the spec's claimed rounding policy for
`set_duty_cycle` — clamp to [0, 1], then `compare = round(period_ticks *
fraction)` with round-to-nearest on the multiply (not truncation).  This
follows the spec's words, to be compared with `set_duty_cycle` above,
which is translated from pwm.c. -/
def set_duty_cycle_rounded (duty_cycle : ℚ) : ℕ :=
  let d := duty_cycle
  let d := if d < 0 then 0 else d
  let d := if d > 1 then 1 else d
  (round ((TIMER_CCR0_VALUE : ℚ) * d)).toNat

end Pwm

namespace Timer

/-- `ACLK_FREQ_HZ` from timer.c: 32768 Hz. -/
def ACLK_FREQ_HZ : ℕ := 32768

/-- `TIMER_ID_DIV` from timer.c. -/
def TIMER_ID_DIV : ℕ := 1

/-- `TIMER_EX_DIV` from timer.c. -/
def TIMER_EX_DIV : ℕ := 1

/-- `TIMER_TOTAL_DIV` from timer.c. -/
def TIMER_TOTAL_DIV : ℕ := TIMER_ID_DIV * TIMER_EX_DIV

/-- `TIMER_CCR0_FROM_MS(ms)` from timer.c:
`(uint16_t)(((uint32_t)ACLK_FREQ_HZ * (uint32_t)ms) / (1000UL *
TIMER_TOTAL_DIV) - 1UL)`.  All intermediate arithmetic is 32-bit unsigned
(`% 2^32`, with unsigned subtraction of 1 modelled as adding `2^32 - 1`),
and the final cast to `uint16_t` is `% 2^16`. -/
def TIMER_CCR0_FROM_MS (ms : ℕ) : ℕ :=
  ((ACLK_FREQ_HZ * ms % 2^32) / (1000 * TIMER_TOTAL_DIV)
      + (2^32 - 1)) % 2^32 % 2^16

/-- `TIMER0_PERIOD_MS` from timer.c: the default 5 ms tick period. -/
def TIMER0_PERIOD_MS : ℕ := 5

/-- `TIMER_CCR0_VALUE` from timer.c: the compare value programmed into
`TA0CCR0` by `timer_init`. -/
def TIMER_CCR0_VALUE : ℕ := TIMER_CCR0_FROM_MS TIMER0_PERIOD_MS

/-- State of the tick source: the file-scope volatile `tick_flag`, plus the
modelled wake request (`__bic_SR_register_on_exit`), which this module's
ISR never issues. -/
structure TimerState where
  tick_flag : Bool
  wake_requested : Bool
deriving Repr, DecidableEq

/-- `timerA0Elapsed` from timer.c, the TIMER0_A0 interrupt handler: its
whole body is `tick_flag = true;` — it does not call
`__bic_SR_register_on_exit`, so `wake_requested` is untouched. -/
def timerA0Elapsed (s : TimerState) : TimerState :=
  { s with tick_flag := true }

/-- `consume_tick` from timer.c: if `tick_flag` is set, clear it and return
true; otherwise return false.  Result `(r, s')`: return value and state
after the call. -/
def consume_tick (s : TimerState) : Bool × TimerState :=
  if s.tick_flag then
    (true, { s with tick_flag := false })
  else
    (false, s)

/-- The tick ISR fired `n` times in a row (no foreground code in between). -/
def fireTicks (n : ℕ) (s : TimerState) : TimerState :=
  match n with
  | 0 => s
  | n + 1 => timerA0Elapsed (fireTicks n s)

end Timer

/-! ## Helper lemmas -/

/-- A sample whose difference from `last_published` exceeds the threshold is
published: the mailbox is overwritten, the pending flag set (`published :=
false`), `last_published` updated, and a wake requested. -/
theorem ADC12_interrupt_publish (s : Adc.AdcState) (raw : ℕ)
    (h : Adc.ADC_CHANGE_THRESHHOLD < Adc.udiff raw s.last_published) :
    Adc.ADC12_interrupt true raw s =
      { s with last_published := raw
               publish_value := raw
               published := false
               wake_requested := true } := by
  simp [Adc.ADC12_interrupt, h]

/-- A sample within the threshold of `last_published` is dropped: the state
is unchanged. -/
theorem ADC12_interrupt_drop (s : Adc.AdcState) (raw : ℕ)
    (h : Adc.udiff raw s.last_published ≤ Adc.ADC_CHANGE_THRESHHOLD) :
    Adc.ADC12_interrupt true raw s = s := by
  simp [Adc.ADC12_interrupt, Nat.not_lt.mpr h]

/-- `run` over the empty sample list. -/
theorem Adc_run_nil (s : Adc.AdcState) : Adc.run [] s = s := rfl

/-- `run` over a cons of samples. -/
theorem Adc_run_cons (a : ℕ) (t : List ℕ) (s : Adc.AdcState) :
    Adc.run (a :: t) s = Adc.run t (Adc.ADC12_interrupt true a s) := rfl

/-- A whole list of within-threshold samples leaves the ADC state
unchanged. -/
theorem Adc_run_small (samples : List ℕ) (s : Adc.AdcState)
    (hsmall : ∀ raw ∈ samples,
      Adc.udiff raw s.last_published ≤ Adc.ADC_CHANGE_THRESHHOLD) :
    Adc.run samples s = s := by
  induction samples with
  | nil => rfl
  | cons a t ih =>
      have ha := hsmall a (List.mem_cons_self a t)
      rw [Adc_run_cons, ADC12_interrupt_drop s a ha]
      exact ih (fun raw hr => hsmall raw (List.mem_cons_of_mem a hr))

/-- A consecutive run of `n + 1` tick interrupts leaves `tick_flag` set. -/
theorem Timer_fireTicks_succ_flag (n : ℕ) (s : Timer.TimerState) :
    (Timer.fireTicks (n + 1) s).tick_flag = true := rfl

/-! ## Claim theorems -/

/-- C1: for every state of the ADC module and every raw sample processed on
the MEM0 path of the interrupt handler, the sample is published (mailbox
value overwritten with the sample, pending flag set via `published :=
false`, `last_published` updated, wake requested) exactly when the unsigned
absolute difference between the sample and the last published value exceeds
`ADC_CHANGE_THRESHHOLD` (100); a sample within the threshold leaves
`last_published`, the mailbox value and the pending flag (and the whole
state) unchanged. -/
theorem adc_threshold_filtering (s : Adc.AdcState) (raw : ℕ) :
    (Adc.ADC_CHANGE_THRESHHOLD < Adc.udiff raw s.last_published →
      Adc.ADC12_interrupt true raw s =
        { s with last_published := raw
                 publish_value := raw
                 published := false
                 wake_requested := true }) ∧
    (Adc.udiff raw s.last_published ≤ Adc.ADC_CHANGE_THRESHHOLD →
      Adc.ADC12_interrupt true raw s = s) :=
  ⟨ADC12_interrupt_publish s raw, ADC12_interrupt_drop s raw⟩

/-- Witness for C1 at the spec's concrete scenario: `last_published =
1000`; sample 1150 (diff 150 > 100) is published, sample 1050 (diff 50 ≤
100) is dropped. -/
theorem adc_threshold_filtering_witness :
    Adc.ADC12_interrupt true 1150 ⟨true, 0, 1000, false⟩ =
      ⟨false, 1150, 1150, true⟩ ∧
    Adc.ADC12_interrupt true 1050 ⟨true, 0, 1000, false⟩ =
      ⟨true, 0, 1000, false⟩ :=
  ⟨(adc_threshold_filtering ⟨true, 0, 1000, false⟩ 1150).1 (by decide),
   (adc_threshold_filtering ⟨true, 0, 1000, false⟩ 1050).2 (by decide)⟩

/-- C2 counterexample: at fraction 0.63 the code writes
`trunc(320 * 0.63) = trunc(201.6) = 201` to the compare register, while the
claimed round-to-nearest policy would write 202; so `set_duty_cycle` does
not round the product to nearest. -/
theorem set_duty_cycle_not_rounded_cex :
    Pwm.set_duty_cycle (63 / 100) = 201 ∧
    Pwm.set_duty_cycle_rounded (63 / 100) = 202 ∧
    Pwm.set_duty_cycle (63 / 100) ≠ Pwm.set_duty_cycle_rounded (63 / 100) := by
  have h1 : Pwm.set_duty_cycle (63 / 100) = 201 := by
    norm_num [Pwm.set_duty_cycle, Pwm.TIMER_CCR0_VALUE]; rfl
  have h2 : Pwm.set_duty_cycle_rounded (63 / 100) = 202 := by
    norm_num [Pwm.set_duty_cycle_rounded, Pwm.TIMER_CCR0_VALUE, round_eq]; rfl
  exact ⟨h1, h2, by rw [h1, h2]; decide⟩

/-- C2 (amended): for every fraction, `set_duty_cycle` first clamps the
fraction to [0, 1] and then writes to the compare register the product
`period_ticks * fraction` truncated toward zero (not rounded to nearest):
the written value is `⌊320 * clamp(f)⌋`, and it brackets the exact product
from below within distance one. -/
theorem set_duty_cycle_clamps_then_truncates (f : ℚ) :
    Pwm.set_duty_cycle f =
      (⌊(Pwm.TIMER_CCR0_VALUE : ℚ) * max 0 (min 1 f)⌋).toNat ∧
    (Pwm.set_duty_cycle f : ℚ) ≤ (Pwm.TIMER_CCR0_VALUE : ℚ) * max 0 (min 1 f) ∧
    (Pwm.TIMER_CCR0_VALUE : ℚ) * max 0 (min 1 f) < Pwm.set_duty_cycle f + 1 := by
  have hclamp : Pwm.set_duty_cycle f =
      (⌊(Pwm.TIMER_CCR0_VALUE : ℚ) * max 0 (min 1 f)⌋).toNat := by
    simp only [Pwm.set_duty_cycle]
    by_cases hn : f < 0
    · rw [if_pos hn, if_neg (by norm_num), min_eq_right (hn.le.trans zero_le_one),
        max_eq_left hn.le]
    · by_cases hg : f > 1
      · rw [if_neg hn, if_pos hg, min_eq_left hg.le, max_eq_right zero_le_one]
      · rw [if_neg hn, if_neg hg,
          min_eq_right (not_lt.mp hg), max_eq_right (not_lt.mp hn)]
  have hpos : (0 : ℚ) ≤ (Pwm.TIMER_CCR0_VALUE : ℚ) * max 0 (min 1 f) :=
    mul_nonneg (by norm_num [Pwm.TIMER_CCR0_VALUE]) (le_max_left 0 _)
  have hcast : (Pwm.set_duty_cycle f : ℚ) =
      (⌊(Pwm.TIMER_CCR0_VALUE : ℚ) * max 0 (min 1 f)⌋ : ℚ) := by
    rw [hclamp]
    exact_mod_cast Int.toNat_of_nonneg (Int.floor_nonneg.mpr hpos)
  refine ⟨hclamp, ?_, ?_⟩
  · rw [hcast]; exact Int.floor_le _
  · calc (Pwm.TIMER_CCR0_VALUE : ℚ) * max 0 (min 1 f)
        < ⌊(Pwm.TIMER_CCR0_VALUE : ℚ) * max 0 (min 1 f)⌋ + 1 :=
          Int.lt_floor_add_one _
    _ = (Pwm.set_duty_cycle f : ℚ) + 1 := by rw [hcast]

/-- C3: clamping and range mapping of `set_duty_cycle`: −0.3 maps like 0.0
and 1.7 like 1.0; 0.0 writes compare 0, 1.0 writes the configured period
320, and 0.5 writes round(period/2) = 160. -/
theorem set_duty_cycle_concrete_values :
    Pwm.set_duty_cycle (-(3 / 10)) = Pwm.set_duty_cycle 0 ∧
    Pwm.set_duty_cycle (17 / 10) = Pwm.set_duty_cycle 1 ∧
    Pwm.set_duty_cycle 0 = 0 ∧
    Pwm.set_duty_cycle 1 = Pwm.TIMER_CCR0_VALUE ∧
    Pwm.set_duty_cycle (1 / 2) = 160 := by
  refine ⟨?_, ?_, ?_, ?_, ?_⟩ <;>
    norm_num [Pwm.set_duty_cycle, Pwm.TIMER_CCR0_VALUE] <;> rfl

/-- C4 counterexample: invoked with no wake request outstanding, the tick
interrupt handler `timerA0Elapsed` returns with `wake_requested` still
false — it never calls `__bic_SR_register_on_exit`, so it does not request
that the processor leave low-power idle on return. -/
theorem timerA0Elapsed_no_wake_cex :
    (Timer.timerA0Elapsed ⟨false, false⟩).wake_requested = false := rfl

/-- C4 (amended): on every invocation, the periodic tick interrupt handler
sets `TickFlag`, but it does not issue a WakeRequest: it leaves the wake
request state exactly as it found it. -/
theorem timerA0Elapsed_sets_flag_only (s : Timer.TimerState) :
    (Timer.timerA0Elapsed s).tick_flag = true ∧
    (Timer.timerA0Elapsed s).wake_requested = s.wake_requested :=
  ⟨rfl, rfl⟩

/-- C5: in the initial state at startup (before the producer interrupt has
ever run) the source initializes `published = false`, which in this
module's inverted convention marks a value as pending; hence the very first
call to `poll_adc_value` returns true and delivers the phantom value 0,
instead of returning false with an empty mailbox. -/
theorem initial_poll_returns_phantom_zero :
    Adc.poll_adc_value Adc.initialState =
      (true, some 0, { Adc.initialState with published := true }) := rfl

/-- C6: at-most-once delivery. If a value is pending and `poll_adc_value`
delivers it, then — as long as the ISR only sees samples within the
threshold of the last published value, i.e. no new qualifying sample — any
later `poll_adc_value` returns false: the delivered value is never
returned twice. -/
theorem adc_at_most_once (s : Adc.AdcState) (samples : List ℕ)
    (hpend : s.published = false)
    (hsmall : ∀ raw ∈ samples,
      Adc.udiff raw s.last_published ≤ Adc.ADC_CHANGE_THRESHHOLD) :
    (Adc.poll_adc_value s).1 = true ∧
    (Adc.poll_adc_value s).2.1 = some s.publish_value ∧
    (Adc.poll_adc_value (Adc.run samples (Adc.poll_adc_value s).2.2)).1
      = false := by
  have hpoll : Adc.poll_adc_value s =
      (true, some s.publish_value, { s with published := true }) := by
    simp [Adc.poll_adc_value, hpend]
  refine ⟨by rw [hpoll], by rw [hpoll], ?_⟩
  rw [hpoll]
  have hrun : Adc.run samples { s with published := true } =
      { s with published := true } :=
    Adc_run_small samples _ hsmall
  rw [hrun]
  simp [Adc.poll_adc_value]

/-- Witness for C6: state with pending value 1150 and `last_published =
1150`; the first poll delivers 1150, and after two further within-threshold
samples (1200 and 1100, diffs 50) the next poll returns false. -/
theorem adc_at_most_once_witness :
    (Adc.poll_adc_value ⟨false, 1150, 1150, true⟩).1 = true ∧
    (Adc.poll_adc_value ⟨false, 1150, 1150, true⟩).2.1 = some 1150 ∧
    (Adc.poll_adc_value
      (Adc.run [1200, 1100]
        (Adc.poll_adc_value ⟨false, 1150, 1150, true⟩).2.2)).1 = false :=
  adc_at_most_once ⟨false, 1150, 1150, true⟩ [1200, 1100] rfl (by decide)

/-- C7: single-slot overwrite (last-writer-wins). If two qualifying samples
`r1` then `r2` are published by the ISR before the consumer polls, the
consumer's next poll observes only `r2` (the most recent), and an
immediately following poll returns false — only one value was buffered, the
first was overwritten and is never delivered. -/
theorem adc_single_slot_overwrite (s : Adc.AdcState) (r1 r2 : ℕ)
    (h1 : Adc.ADC_CHANGE_THRESHHOLD < Adc.udiff r1 s.last_published)
    (h2 : Adc.ADC_CHANGE_THRESHHOLD < Adc.udiff r2 r1) :
    (Adc.poll_adc_value
        (Adc.ADC12_interrupt true r2 (Adc.ADC12_interrupt true r1 s))).1
      = true ∧
    (Adc.poll_adc_value
        (Adc.ADC12_interrupt true r2 (Adc.ADC12_interrupt true r1 s))).2.1
      = some r2 ∧
    (Adc.poll_adc_value
        (Adc.poll_adc_value
          (Adc.ADC12_interrupt true r2 (Adc.ADC12_interrupt true r1 s))).2.2).1
      = false := by
  rw [ADC12_interrupt_publish s r1 h1]
  rw [ADC12_interrupt_publish _ r2 h2]
  refine ⟨?_, ?_, ?_⟩ <;> simp [Adc.poll_adc_value]

/-- Witness for C7 from the startup state: qualifying samples 150 then 300
(diffs 150 each); the poll delivers 300, then returns false. -/
theorem adc_single_slot_overwrite_witness :
    (Adc.poll_adc_value
        (Adc.ADC12_interrupt true 300
          (Adc.ADC12_interrupt true 150 Adc.initialState))).1 = true ∧
    (Adc.poll_adc_value
        (Adc.ADC12_interrupt true 300
          (Adc.ADC12_interrupt true 150 Adc.initialState))).2.1 = some 300 ∧
    (Adc.poll_adc_value
        (Adc.poll_adc_value
          (Adc.ADC12_interrupt true 300
            (Adc.ADC12_interrupt true 150 Adc.initialState))).2.2).1 = false :=
  adc_single_slot_overwrite Adc.initialState 150 300 (by decide) (by decide)

/-- C8: tick coalescing. If the tick interrupt fires `n ≥ 2` times before
the foreground consumes, a single `consume_tick` returns true and clears
`tick_flag`, and an immediately following `consume_tick` returns false —
exactly one true result, no accumulated backlog. -/
theorem tick_coalescing (s : Timer.TimerState) (n : ℕ) (h : 2 ≤ n) :
    Timer.consume_tick (Timer.fireTicks n s) =
      (true, { Timer.fireTicks n s with tick_flag := false }) ∧
    (Timer.consume_tick
        { Timer.fireTicks n s with tick_flag := false }).1 = false := by
  obtain ⟨m, rfl⟩ : ∃ m, n = m + 1 :=
    ⟨n - 1, (Nat.succ_pred_eq_of_pos (by omega)).symm⟩
  have hflag : (Timer.fireTicks (m + 1) s).tick_flag = true :=
    Timer_fireTicks_succ_flag m s
  constructor
  · simp [Timer.consume_tick, hflag]
  · simp [Timer.consume_tick]

/-- Witness for C8: two tick interrupts from the startup state, then one
consuming call returning true and a second returning false. -/
theorem tick_coalescing_witness :
    Timer.consume_tick (Timer.fireTicks 2 ⟨false, false⟩) =
      (true, { Timer.fireTicks 2 ⟨false, false⟩ with tick_flag := false }) ∧
    (Timer.consume_tick
        { Timer.fireTicks 2 ⟨false, false⟩ with tick_flag := false }).1
      = false :=
  tick_coalescing ⟨false, false⟩ 2 (by decide)

/-- C9: the periodic timer's compare value for the default 5 ms period on
the 32768 Hz clock with all dividers 1 is 162; it equals the truncating
division `(32768 * 5) / (1000 * 1)` minus one, and the 32-bit intermediate
product `32768 * 5` does not overflow. -/
theorem timer_ccr0_computation :
    Timer.TIMER_CCR0_VALUE = 162 ∧
    Timer.TIMER_CCR0_VALUE =
      Timer.ACLK_FREQ_HZ * Timer.TIMER0_PERIOD_MS
        / (1000 * Timer.TIMER_TOTAL_DIV) - 1 ∧
    Timer.ACLK_FREQ_HZ * Timer.TIMER0_PERIOD_MS < 2 ^ 32 :=
  ⟨by decide, by decide, by decide⟩

/-- C10: frame condition of `poll_adc_value` when nothing is pending
(`published = true`): it returns false, does not write through the caller's
output pointer, and leaves the whole mailbox state unchanged. -/
theorem poll_no_pending_frame (s : Adc.AdcState) (h : s.published = true) :
    Adc.poll_adc_value s = (false, none, s) := by
  simp [Adc.poll_adc_value, h]

/-- Witness for C10 at a concrete consumed state. -/
theorem poll_no_pending_frame_witness :
    Adc.poll_adc_value ⟨true, 7, 7, false⟩ = (false, none, ⟨true, 7, 7, false⟩) :=
  poll_no_pending_frame ⟨true, 7, 7, false⟩ rfl
